import Mathlib

/-!
# Arnold to USD writer: generic and ginstance translators

Shallow embedding of `translator/writer/write_arnold_type.cpp`:

* `UsdArnoldWriteArnoldType.Write` (lines 43-71),
* `UsdArnoldWriteGinstance._ProcessInstanceAttribute` (lines 73-100),
* `UsdArnoldWriteGinstance.Write` (lines 102-130).

The Arnold universe is a read-only map from node pointers to node data, the USD
stage is a map from paths to primitives, and the mutable C++ state touched by the
translators (the stage held by the writer and the `_exportedAttrs` member of the
translator) is threaded explicitly.  Every mutating call made by the source is
also appended to a call log, so that statements such as "no `DefinePrim` is
performed" or "the transform is written exactly once" can be expressed.

The functions of the base class that the file calls (`GetArnoldNodeName`,
`_WriteMatrix`, `_WriteMaterialBinding`, `_WriteArnoldParameters`) are parameters of
the embedding.  What the specification says of code that is not in this file (the
attribute writer and its contract, the life cycle of the exported set) is modelled
in definitions marked as such.
-/

namespace ArnoldUsd

/-! ## Arnold SDK (`ai.h`): parameter types, node kinds, nodes -/

/-- Arnold SDK constant `AI_TYPE_BYTE` (ai_params.h). -/
def AI_TYPE_BYTE : Int := 0x00
/-- Arnold SDK constant `AI_TYPE_INT` (ai_params.h). -/
def AI_TYPE_INT : Int := 0x01
/-- Arnold SDK constant `AI_TYPE_BOOLEAN` (ai_params.h). -/
def AI_TYPE_BOOLEAN : Int := 0x03
/-- Arnold SDK constant `AI_TYPE_FLOAT` (ai_params.h). -/
def AI_TYPE_FLOAT : Int := 0x04
/-- Arnold SDK constant `AI_TYPE_STRING` (ai_params.h). -/
def AI_TYPE_STRING : Int := 0x0A
/-- Arnold SDK constant `AI_TYPE_POINTER` (ai_params.h). -/
def AI_TYPE_POINTER : Int := 0x0B
/-- Arnold SDK constant `AI_TYPE_NODE` (ai_params.h). -/
def AI_TYPE_NODE : Int := 0x0C
/-- Arnold SDK constant `AI_TYPE_ARRAY` (ai_params.h). -/
def AI_TYPE_ARRAY : Int := 0x0D
/-- Arnold SDK constant `AI_TYPE_MATRIX` (ai_params.h). -/
def AI_TYPE_MATRIX : Int := 0x0E
/-- Arnold SDK constant `AI_TYPE_ENUM` (ai_params.h). -/
def AI_TYPE_ENUM : Int := 0x0F

/-- Arnold SDK constant `AI_NODE_OPTIONS` (ai_node_entry.h). -/
def AI_NODE_OPTIONS : Int := 0x0001
/-- Arnold SDK constant `AI_NODE_CAMERA` (ai_node_entry.h). -/
def AI_NODE_CAMERA : Int := 0x0002
/-- Arnold SDK constant `AI_NODE_LIGHT` (ai_node_entry.h). -/
def AI_NODE_LIGHT : Int := 0x0004
/-- Arnold SDK constant `AI_NODE_SHAPE` (ai_node_entry.h). -/
def AI_NODE_SHAPE : Int := 0x0008
/-- Arnold SDK constant `AI_NODE_SHADER` (ai_node_entry.h). -/
def AI_NODE_SHADER : Int := 0x0010
/-- Arnold SDK constant `AI_NODE_DRIVER` (ai_node_entry.h). -/
def AI_NODE_DRIVER : Int := 0x0040

/-- A node pointer `const AtNode *` that is not null: the address of a node of the
Arnold universe.  The null pointer is `none : Option AtNode`. -/
abbrev AtNode := Nat

/-- A typed parameter value held by a node.  Floats and matrix entries are kept as
raw bit patterns: the translators only move them around. -/
inductive AtParamValue where
  | BYTE (v : Nat)
  | INT (v : Int)
  | BOOLEAN (v : Bool)
  | FLOAT (bits : Nat)
  | STRING (v : String)
  | ENUM (label : String)
  | MATRIX (entries : List Nat)
  | ARRAY (elems : List Int)
  | POINTER (address : Option Nat)
  | NODE (target : Option AtNode)
  deriving DecidableEq, Repr

/-- A parameter declared by a node entry: `AtParamEntry`, with `AiParamGetName`
and `AiParamGetType`. -/
structure AtParamEntry where
  name : String
  type : Int
  deriving DecidableEq, Repr

/-- A node entry (the schema of a node): `AtNodeEntry`. -/
structure AtNodeEntry where
  type : Int
  params : List AtParamEntry
  deriving DecidableEq, Repr

/-- What a node pointer points to: the node name, its entry and the current
values of its parameters, keyed by name. -/
structure AtNodeData where
  name : String
  entry : AtNodeEntry
  values : List (String × AtParamValue)
  deriving DecidableEq, Repr

/-- The Arnold universe: the contents of every node.  The translators never
modify it. -/
abbrev AtUniverse := AtNode → AtNodeData

/-- Arnold `AiNodeGetNodeEntry`. -/
def AiNodeGetNodeEntry (u : AtUniverse) (node : AtNode) : AtNodeEntry :=
  (u node).entry

/-- Arnold `AiNodeEntryGetType`. -/
def AiNodeEntryGetType (entry : AtNodeEntry) : Int :=
  entry.type

/-- Arnold `AiNodeEntryLookUpParameter`: the declared parameter of that name, or
`none` for the null pointer. -/
def AiNodeEntryLookUpParameter (entry : AtNodeEntry) (attrName : String) :
    Option AtParamEntry :=
  entry.params.find? (fun p => p.name == attrName)

/-- The current value of a parameter of a node, if the node has one. -/
def AiNodeGetValue (u : AtUniverse) (node : AtNode) (attrName : String) :
    Option AtParamValue :=
  (u node).values.lookup attrName

/-- Arnold `AiNodeGetBool`: `false` when the node has no boolean of that name. -/
def AiNodeGetBool (u : AtUniverse) (node : AtNode) (attrName : String) : Bool :=
  match AiNodeGetValue u node attrName with
  | some (AtParamValue.BOOLEAN b) => b
  | _ => false

/-- Arnold `AiNodeGetByte`: a `uint8_t`, `0` when the node has no byte of that
name. -/
def AiNodeGetByte (u : AtUniverse) (node : AtNode) (attrName : String) : Nat :=
  match AiNodeGetValue u node attrName with
  | some (AtParamValue.BYTE n) => n % 256
  | _ => 0

/-- Arnold `AiNodeGetPtr`: the pointer held by a pointer or node parameter, null
(`none`) otherwise. -/
def AiNodeGetPtr (u : AtUniverse) (node : AtNode) (attrName : String) : Option Nat :=
  match AiNodeGetValue u node attrName with
  | some (AtParamValue.NODE p) => p
  | some (AtParamValue.POINTER p) => p
  | _ => none

/-! ## USD: value types, attributes, primitives, the stage -/

/-- The members of `SdfValueTypeNames` that the writers use. -/
inductive SdfValueTypeName where
  | Bool
  | UChar
  | Int
  | Float
  | String
  | Token
  | Matrix4d
  | IntArray
  deriving DecidableEq, Repr

/-- A value stored in a USD attribute (`VtValue`). -/
inductive VtValue where
  | bool (v : Bool)
  | uchar (v : Nat)
  | int (v : Int)
  | float (bits : Nat)
  | string (v : String)
  | token (v : String)
  | matrix (entries : List Nat)
  | intArray (elems : List Int)
  deriving DecidableEq, Repr

/-- An attribute spec of a primitive: its type name, the `custom` flag given to
`CreateAttribute`, and its default value once `Set` has been called. -/
structure UsdAttributeData where
  typeName : SdfValueTypeName
  custom : Bool
  value : Option VtValue
  deriving DecidableEq, Repr

/-- A path on the stage (`SdfPath`), built from the node name. -/
abbrev SdfPath := String

/-- A primitive of the stage: type name, activity, attributes and relationships
by name. -/
structure UsdPrimData where
  typeName : String
  active : Bool
  attributes : String → Option UsdAttributeData
  relationships : String → Option (List SdfPath)

/-- The stage, a path-addressed container of primitives. -/
abbrev UsdStage := SdfPath → Option UsdPrimData

/-- A handle `UsdPrim` on the stage is the path it was obtained for. -/
abbrev UsdPrim := SdfPath

/-- USD `UsdStage::GetPrimAtPath`. -/
def UsdStage.GetPrimAtPath (stage : UsdStage) (path : SdfPath) : Option UsdPrimData :=
  stage path

/-- The test `prim && prim.IsActive()` on the result of `GetPrimAtPath`. -/
def primIsValidAndActive (p : Option UsdPrimData) : Bool :=
  match p with
  | some d => d.active
  | none => false

/-- USD `UsdStage::DefinePrim`: a primitive already at the path keeps its
attributes, relationships and activity and takes the type name; otherwise a new
active primitive without any field is created. -/
def UsdStage.DefinePrim (stage : UsdStage) (path : SdfPath) (typeName : String) : UsdStage :=
  match stage path with
  | some d => Function.update stage path (some { d with typeName := typeName })
  | none =>
    Function.update stage path
      (some { typeName := typeName, active := true,
              attributes := fun _ => none, relationships := fun _ => none })

/-- USD `UsdPrim::CreateAttribute`: creates the attribute spec without a value,
or returns the attribute that is already there. -/
def UsdPrim.CreateAttribute (stage : UsdStage) (prim : UsdPrim) (name : String)
    (typeName : SdfValueTypeName) (custom : Bool) : UsdStage :=
  match stage prim with
  | none => stage
  | some d =>
    match d.attributes name with
    | some _ => stage
    | none =>
      let attr : UsdAttributeData := { typeName := typeName, custom := custom, value := none }
      Function.update stage prim
        (some { d with attributes := Function.update d.attributes name (some attr) })

/-- USD `UsdAttribute::Set` on the attribute `name` of `prim`: the value becomes the
default value of the attribute, stored as given (the `SetFieldValue` of the
container interface of the specification). -/
def UsdAttribute.Set (stage : UsdStage) (prim : UsdPrim) (name : String) (v : VtValue) :
    UsdStage :=
  match stage prim with
  | none => stage
  | some d =>
    match d.attributes name with
    | none => stage
    | some a =>
      let attr : UsdAttributeData := { a with value := some v }
      Function.update stage prim
        (some { d with attributes := Function.update d.attributes name (some attr) })

/-- The attribute `name` of the primitive at `path`, if both exist. -/
def attributeAt (stage : UsdStage) (path : SdfPath) (name : String) :
    Option UsdAttributeData :=
  (stage path).bind (fun d => d.attributes name)

/-! ## The translator state and the call log -/

/-- The mutable C++ state the translators work on: the members `_usdName` and
`_exportedAttrs` of the translator object, and the stage returned by
`writer.GetUsdStage()`. -/
structure TranslatorState where
  _usdName : String
  _exportedAttrs : List String
  stage : UsdStage

/-- A mutating call made by the translators, as recorded in the call log. -/
inductive Call where
  | DefinePrim (path : SdfPath) (typeName : String)
  | CreateAttribute (prim : UsdPrim) (name : String) (typeName : SdfValueTypeName)
      (custom : Bool)
  | Set (prim : UsdPrim) (name : String) (value : VtValue)
  | WriteMatrix (xformable : UsdPrim) (node : AtNode)
  | WriteMaterialBinding (node : AtNode) (prim : UsdPrim)
  | WriteArnoldParameters (node : AtNode) (prim : UsdPrim) (scope : String)
  deriving DecidableEq, Repr

/-- A translator state together with the log of the mutating calls made so far. -/
structure Run where
  st : TranslatorState
  log : List Call

/-- The functions of the base class `UsdArnoldPrimWriter` that
`write_arnold_type.cpp` calls and that are defined elsewhere in the repository.
They are parameters of the embedding: each may read and change the whole
translator state. -/
structure Collaborators where
  GetArnoldNodeName : AtNode → TranslatorState → String
  _WriteMatrix : UsdPrim → AtNode → TranslatorState → TranslatorState
  _WriteMaterialBinding : AtNode → UsdPrim → TranslatorState → TranslatorState
  _WriteArnoldParameters : AtNode → UsdPrim → String → TranslatorState → TranslatorState

/-- The call `stage->DefinePrim(objPath, TfToken(_usdName))`. -/
def Run.DefinePrim (r : Run) (path : SdfPath) (typeName : String) : Run :=
  { st := { r.st with stage := UsdStage.DefinePrim r.st.stage path typeName },
    log := r.log ++ [Call.DefinePrim path typeName] }

/-- The call `prim.CreateAttribute(TfToken(name), usdType, custom)`. -/
def Run.CreateAttribute (r : Run) (prim : UsdPrim) (name : String)
    (typeName : SdfValueTypeName) (custom : Bool) : Run :=
  { st := { r.st with stage := UsdPrim.CreateAttribute r.st.stage prim name typeName custom },
    log := r.log ++ [Call.CreateAttribute prim name typeName custom] }

/-- The call `attr.Set(value)` on the attribute `name` of `prim`. -/
def Run.Set (r : Run) (prim : UsdPrim) (name : String) (v : VtValue) : Run :=
  { st := { r.st with stage := UsdAttribute.Set r.st.stage prim name v },
    log := r.log ++ [Call.Set prim name v] }

/-- The statement `_exportedAttrs.insert(attrName)`. -/
def Run.exportedAttrsInsert (r : Run) (attrName : String) : Run :=
  { r with st := { r.st with _exportedAttrs := r.st._exportedAttrs.insert attrName } }

/-- The call `_WriteMatrix(xformable, node, writer)`. -/
def Run.WriteMatrix (r : Run) (c : Collaborators) (xformable : UsdPrim) (node : AtNode) :
    Run :=
  { st := c._WriteMatrix xformable node r.st,
    log := r.log ++ [Call.WriteMatrix xformable node] }

/-- The call `_WriteMaterialBinding(node, prim, writer)`. -/
def Run.WriteMaterialBinding (r : Run) (c : Collaborators) (node : AtNode)
    (prim : UsdPrim) : Run :=
  { st := c._WriteMaterialBinding node prim r.st,
    log := r.log ++ [Call.WriteMaterialBinding node prim] }

/-- The call `_WriteArnoldParameters(node, writer, prim, scope)`. -/
def Run.WriteArnoldParameters (r : Run) (c : Collaborators) (node : AtNode)
    (prim : UsdPrim) (scope : String) : Run :=
  { st := c._WriteArnoldParameters node prim scope r.st,
    log := r.log ++ [Call.WriteArnoldParameters node prim scope] }

/-! ## The translators of `write_arnold_type.cpp` -/

/-- Source `UsdArnoldWriteArnoldType::Write` (lines 43-71). -/
def UsdArnoldWriteArnoldType.Write (c : Collaborators) (u : AtUniverse) (node : AtNode)
    (r : Run) : Run :=
  let nodeName := c.GetArnoldNodeName node r.st
  let objPath : SdfPath := nodeName
  let prim := UsdStage.GetPrimAtPath r.st.stage objPath
  if primIsValidAndActive prim then
    r
  else
    let r1 := r.DefinePrim objPath r.st._usdName
    let nodeEntryType := AiNodeEntryGetType (AiNodeGetNodeEntry u node)
    let r2 :=
      if nodeEntryType = AI_NODE_SHAPE ∨ nodeEntryType = AI_NODE_CAMERA
          ∨ nodeEntryType = AI_NODE_LIGHT then
        let r3 := r1.WriteMatrix c objPath node
        if nodeEntryType = AI_NODE_SHAPE then
          r3.WriteMaterialBinding c node objPath
        else r3
      else r1
    r2.WriteArnoldParameters c node objPath "arnold"

/-- Source `UsdArnoldWriteGinstance::_ProcessInstanceAttribute` (lines 73-100). -/
def UsdArnoldWriteGinstance._ProcessInstanceAttribute (u : AtUniverse) (prim : UsdPrim)
    (node target : AtNode) (attrName : String) (attrType : Int) (r : Run) : Run :=
  if (AiNodeEntryLookUpParameter (AiNodeGetNodeEntry u target) attrName).isNone then
    r
  else
    let sel : Option (Bool × SdfValueTypeName) :=
      if attrType = AI_TYPE_BOOLEAN then
        some (AiNodeGetBool u node attrName != AiNodeGetBool u target attrName,
              SdfValueTypeName.Bool)
      else if attrType = AI_TYPE_BYTE then
        some (AiNodeGetByte u node attrName != AiNodeGetByte u target attrName,
              SdfValueTypeName.UChar)
      else none
    match sel with
    | none => r
    | some (writeValue, usdType) =>
      let r1 :=
        if writeValue then
          let r2 := r.CreateAttribute prim attrName usdType false
          if attrType = AI_TYPE_BOOLEAN then
            r2.Set prim attrName (VtValue.bool (AiNodeGetBool u node attrName))
          else if attrType = AI_TYPE_BYTE then
            r2.Set prim attrName (VtValue.uchar (AiNodeGetByte u node attrName))
          else r2
        else r
      r1.exportedAttrsInsert attrName

/-- The six calls of lines 118-123 of `UsdArnoldWriteGinstance::Write`, made when
the `node` pointer is not null. -/
def UsdArnoldWriteGinstance.Write_diff (u : AtUniverse) (prim : UsdPrim)
    (node target : AtNode) (r : Run) : Run :=
  let r1 := _ProcessInstanceAttribute u prim node target "visibility" AI_TYPE_BYTE r
  let r2 := _ProcessInstanceAttribute u prim node target "sidedness" AI_TYPE_BYTE r1
  let r3 := _ProcessInstanceAttribute u prim node target "matte" AI_TYPE_BOOLEAN r2
  let r4 := _ProcessInstanceAttribute u prim node target "receive_shadows" AI_TYPE_BOOLEAN r3
  let r5 := _ProcessInstanceAttribute u prim node target "invert_normals" AI_TYPE_BOOLEAN r4
  _ProcessInstanceAttribute u prim node target "self_shadows" AI_TYPE_BOOLEAN r5

/-- Source `UsdArnoldWriteGinstance::Write` (lines 102-130). -/
def UsdArnoldWriteGinstance.Write (c : Collaborators) (u : AtUniverse) (node : AtNode)
    (r : Run) : Run :=
  let nodeName := c.GetArnoldNodeName node r.st
  let objPath : SdfPath := nodeName
  let prim := UsdStage.GetPrimAtPath r.st.stage objPath
  if primIsValidAndActive prim then
    r
  else
    let r1 := r.DefinePrim objPath r.st._usdName
    let r2 :=
      match AiNodeGetPtr u node "node" with
      | some target => Write_diff u objPath node target r1
      | none => r1
    let r3 := r2.WriteMatrix c objPath node
    let r4 := r3.WriteMaterialBinding c node objPath
    r4.WriteArnoldParameters c node objPath "arnold"

/-! ## The collaborators, modelled from the specification

`GetArnoldNodeName`, `_WriteMatrix`, `_WriteMaterialBinding` and
`_WriteArnoldParameters` are defined outside `write_arnold_type.cpp`.  The general
results below hold for every `Collaborators`; the definitions of this section give
one instance, used to run the translators on concrete scenes. -/

/-- Modelled from the spec: the type mapping of the AttributeWriter (section 4.1),
whose code is not part of the sources: "boolean→boolean, byte/int/float/string/enum
→matching scalar type, matrix→matrix type, array types→ordered-sequence types.
Unsupported/unknown types are skipped". -/
def ConvertArnoldParameter (v : AtParamValue) : Option (SdfValueTypeName × VtValue) :=
  match v with
  | AtParamValue.BOOLEAN b => some (SdfValueTypeName.Bool, VtValue.bool b)
  | AtParamValue.BYTE n => some (SdfValueTypeName.UChar, VtValue.uchar (n % 256))
  | AtParamValue.INT i => some (SdfValueTypeName.Int, VtValue.int i)
  | AtParamValue.FLOAT x => some (SdfValueTypeName.Float, VtValue.float x)
  | AtParamValue.STRING s => some (SdfValueTypeName.String, VtValue.string s)
  | AtParamValue.ENUM l => some (SdfValueTypeName.Token, VtValue.token l)
  | AtParamValue.MATRIX m => some (SdfValueTypeName.Matrix4d, VtValue.matrix m)
  | AtParamValue.ARRAY a => some (SdfValueTypeName.IntArray, VtValue.intArray a)
  | AtParamValue.POINTER _ => none
  | AtParamValue.NODE _ => none

/-- Modelled from the spec: the field name given by the AttributeWriter (not part
of the sources) to the attribute `attrName` under the scope `scope`; with the scope
`arnold` the attributes are prefixed with `arnold:` (Scenario 1: `arnold:matte`). -/
def scopedName (scope attrName : String) : String :=
  scope ++ ":" ++ attrName

/-- Modelled from the spec: one step of the AttributeWriter loop (not part of the
sources), for one declared parameter.  The parameter is skipped when the exported
set of the caller excludes it, when it was already created in this call, or when its
value has no supported type; otherwise one field is created and assigned. -/
def writeOneParameter (u : AtUniverse) (node : AtNode) (prim : UsdPrim) (scope : String)
    (exported : List String) (acc : UsdStage × List String) (p : AtParamEntry) :
    UsdStage × List String :=
  if p.name ∈ exported ∨ p.name ∈ acc.2 then acc
  else
    match (AiNodeGetValue u node p.name).bind ConvertArnoldParameter with
    | none => acc
    | some (ty, val) =>
      let stage1 := UsdPrim.CreateAttribute acc.1 prim (scopedName scope p.name) ty false
      (UsdAttribute.Set stage1 prim (scopedName scope p.name) val, p.name :: acc.2)

/-- Modelled from the spec: `_WriteArnoldParameters`, the AttributeWriter of section
4.1 (defined in the base class, not part of the sources): enumerates the parameters
declared by the node entry and writes each as a typed field under the scope. -/
def specWriteArnoldParameters (u : AtUniverse) (node : AtNode) (prim : UsdPrim)
    (scope : String) (st : TranslatorState) : TranslatorState :=
  let written :=
    (AiNodeGetNodeEntry u node).params.foldl
      (writeOneParameter u node prim scope st._exportedAttrs) (st.stage, [])
  { st with stage := written.1 }

/-- Modelled from the spec: `_WriteMatrix`, the spatial writer of section 6 (not part
of the sources): "writes a 4×4 transform ... as time-independent spatial data",
here the `matrix` parameter of the node as the attribute `xformOp:transform`. -/
def specWriteMatrix (u : AtUniverse) (xformable : UsdPrim) (node : AtNode)
    (st : TranslatorState) : TranslatorState :=
  match AiNodeGetValue u node "matrix" with
  | some (AtParamValue.MATRIX m) =>
    let stage1 :=
      UsdPrim.CreateAttribute st.stage xformable "xformOp:transform"
        SdfValueTypeName.Matrix4d false
    let stage2 := UsdAttribute.Set stage1 xformable "xformOp:transform" (VtValue.matrix m)
    { st with stage := stage2 }
  | _ => st

/-- Modelled from the spec: `_WriteMaterialBinding`, the material-binding writer of
section 6 (not part of the sources): resolves the material reference assigned to the
node and writes a binding relationship, here from the `shader` parameter of
the node to the relationship `material:binding`. -/
def specWriteMaterialBinding (u : AtUniverse) (node : AtNode) (prim : UsdPrim)
    (st : TranslatorState) : TranslatorState :=
  match AiNodeGetValue u node "shader", st.stage prim with
  | some (AtParamValue.NODE (some shader)), some d =>
    let rels := Function.update d.relationships "material:binding" (some [(u shader).name])
    { st with stage := Function.update st.stage prim (some { d with relationships := rels }) }
  | _, _ => st

/-- Modelled from the spec: the name resolver `GetArnoldNodeName` of section 6 (not
part of the sources), "(SourceNode) -> path string, deterministic": the name of
the node. -/
def specGetArnoldNodeName (u : AtUniverse) (node : AtNode) (_st : TranslatorState) :
    String :=
  (u node).name

/-- The collaborators as the specification describes them. -/
def specCollaborators (u : AtUniverse) : Collaborators :=
  { GetArnoldNodeName := specGetArnoldNodeName u,
    _WriteMatrix := specWriteMatrix u,
    _WriteMaterialBinding := specWriteMaterialBinding u,
    _WriteArnoldParameters := specWriteArnoldParameters u }

/-! ## Concrete scenes -/

/-- The parameters of the allow-list, as a `ginstance` or a shape declares them. -/
def shapeParams : List AtParamEntry :=
  [⟨"visibility", AI_TYPE_BYTE⟩, ⟨"sidedness", AI_TYPE_BYTE⟩, ⟨"matte", AI_TYPE_BOOLEAN⟩,
   ⟨"receive_shadows", AI_TYPE_BOOLEAN⟩, ⟨"invert_normals", AI_TYPE_BOOLEAN⟩,
   ⟨"self_shadows", AI_TYPE_BOOLEAN⟩]

/-- The entries of the identity transform, as the bit patterns of `1.0f` and `0.0f`. -/
def identityMatrix : List Nat :=
  [1065353216, 0, 0, 0, 0, 1065353216, 0, 0, 0, 0, 1065353216, 0, 0, 0, 0, 1065353216]

/-- A scene with a shape (node 1), an instance of it that overrides `visibility`
and `matte` (node 2), an instance without a reference (node 3), a driver (node 4),
a camera (node 5), a light (node 6), an instance (node 7) of a shape that declares
only `visibility` and `matte` (node 8), and a shape with a transform (node 9). -/
def demoUniverse : AtUniverse := fun n =>
  match n with
  | 1 =>
    { name := "/mesh",
      entry := { type := AI_NODE_SHAPE, params := shapeParams },
      values := [("visibility", AtParamValue.BYTE 255), ("sidedness", AtParamValue.BYTE 255),
        ("matte", AtParamValue.BOOLEAN true), ("receive_shadows", AtParamValue.BOOLEAN true),
        ("invert_normals", AtParamValue.BOOLEAN false),
        ("self_shadows", AtParamValue.BOOLEAN true)] }
  | 2 =>
    { name := "/inst",
      entry := { type := AI_NODE_SHAPE,
                 params := ⟨"node", AI_TYPE_NODE⟩ :: shapeParams },
      values := [("node", AtParamValue.NODE (some 1)),
        ("visibility", AtParamValue.BYTE 0), ("sidedness", AtParamValue.BYTE 255),
        ("matte", AtParamValue.BOOLEAN false), ("receive_shadows", AtParamValue.BOOLEAN true),
        ("invert_normals", AtParamValue.BOOLEAN false),
        ("self_shadows", AtParamValue.BOOLEAN true)] }
  | 3 =>
    { name := "/loose",
      entry := { type := AI_NODE_SHAPE,
                 params := ⟨"node", AI_TYPE_NODE⟩ :: shapeParams },
      values := [("node", AtParamValue.NODE none),
        ("visibility", AtParamValue.BYTE 255), ("sidedness", AtParamValue.BYTE 255),
        ("matte", AtParamValue.BOOLEAN false), ("receive_shadows", AtParamValue.BOOLEAN true),
        ("invert_normals", AtParamValue.BOOLEAN false),
        ("self_shadows", AtParamValue.BOOLEAN true)] }
  | 4 =>
    { name := "/driver",
      entry := { type := AI_NODE_DRIVER, params := [⟨"filename", AI_TYPE_STRING⟩] },
      values := [("filename", AtParamValue.STRING "out.exr")] }
  | 5 =>
    { name := "/cam",
      entry := { type := AI_NODE_CAMERA, params := [⟨"fov", AI_TYPE_FLOAT⟩] },
      values := [("fov", AtParamValue.FLOAT 1110704128)] }
  | 6 =>
    { name := "/light",
      entry := { type := AI_NODE_LIGHT, params := [⟨"samples", AI_TYPE_INT⟩] },
      values := [("samples", AtParamValue.INT 2)] }
  | 7 =>
    { name := "/inst2",
      entry := { type := AI_NODE_SHAPE,
                 params := ⟨"node", AI_TYPE_NODE⟩ :: shapeParams },
      values := [("node", AtParamValue.NODE (some 8)),
        ("visibility", AtParamValue.BYTE 255), ("sidedness", AtParamValue.BYTE 0),
        ("matte", AtParamValue.BOOLEAN true), ("receive_shadows", AtParamValue.BOOLEAN true),
        ("invert_normals", AtParamValue.BOOLEAN false),
        ("self_shadows", AtParamValue.BOOLEAN true)] }
  | 8 =>
    { name := "/points",
      entry := { type := AI_NODE_SHAPE,
                 params := [⟨"visibility", AI_TYPE_BYTE⟩, ⟨"matte", AI_TYPE_BOOLEAN⟩] },
      values := [("visibility", AtParamValue.BYTE 255), ("matte", AtParamValue.BOOLEAN false)] }
  | 9 =>
    { name := "/xmesh",
      entry := { type := AI_NODE_SHAPE,
                 params := [⟨"matrix", AI_TYPE_MATRIX⟩, ⟨"matte", AI_TYPE_BOOLEAN⟩] },
      values := [("matrix", AtParamValue.MATRIX identityMatrix),
        ("matte", AtParamValue.BOOLEAN true)] }
  | _ =>
    { name := "/other", entry := { type := AI_NODE_OPTIONS, params := [] }, values := [] }

/-- The empty stage. -/
def emptyStage : UsdStage := fun _ => none

/-- A fresh translator of target type `typeName` on an empty stage, nothing logged. -/
def freshRun (typeName : String) : Run :=
  { st := { _usdName := typeName, _exportedAttrs := [], stage := emptyStage }, log := [] }

/-! ## Describing the diff path -/

/-- The static table of the attributes that `UsdArnoldWriteGinstance::Write` diffs
(lines 118-123), in the order of the calls. -/
def allowList : List (String × Int) :=
  [("visibility", AI_TYPE_BYTE), ("sidedness", AI_TYPE_BYTE), ("matte", AI_TYPE_BOOLEAN),
   ("receive_shadows", AI_TYPE_BOOLEAN), ("invert_normals", AI_TYPE_BOOLEAN),
   ("self_shadows", AI_TYPE_BOOLEAN)]

/-- The value of the attribute `attrName` of `node` as the diff path reads it for
the type `attrType`, with the USD type it is written under: `AiNodeGetBool` for a
boolean, `AiNodeGetByte` for a byte, no value for any other type. -/
def diffValue (u : AtUniverse) (node : AtNode) (attrName : String) (attrType : Int) :
    Option (SdfValueTypeName × VtValue) :=
  if attrType = AI_TYPE_BOOLEAN then
    some (SdfValueTypeName.Bool, VtValue.bool (AiNodeGetBool u node attrName))
  else if attrType = AI_TYPE_BYTE then
    some (SdfValueTypeName.UChar, VtValue.uchar (AiNodeGetByte u node attrName))
  else none

/-- The calls expected from one `_ProcessInstanceAttribute`: a `CreateAttribute`
and a `Set` under the plain attribute name when the target declares the attribute
and the two values differ, nothing otherwise. -/
def processCalls (u : AtUniverse) (prim : UsdPrim) (node target : AtNode)
    (attrName : String) (attrType : Int) : List Call :=
  if (AiNodeEntryLookUpParameter (AiNodeGetNodeEntry u target) attrName).isNone then []
  else
    match diffValue u node attrName attrType, diffValue u target attrName attrType with
    | some (t, v), some (_, w) =>
      if v = w then [] else [Call.CreateAttribute prim attrName t false, Call.Set prim attrName v]
    | _, _ => []

/-- The calls expected from a sequence of `_ProcessInstanceAttribute` calls over a
table of attributes. -/
def diffCalls (u : AtUniverse) (prim : UsdPrim) (node target : AtNode) :
    List (String × Int) → List Call
  | [] => []
  | a :: l => processCalls u prim node target a.1 a.2 ++ diffCalls u prim node target l

/-- A sequence of `_ProcessInstanceAttribute` calls over a table of attributes. -/
def processAll (u : AtUniverse) (prim : UsdPrim) (node target : AtNode)
    (l : List (String × Int)) (r : Run) : Run :=
  l.foldl
    (fun acc a =>
      UsdArnoldWriteGinstance._ProcessInstanceAttribute u prim node target a.1 a.2 acc) r

/-- Recognises a `_WriteMatrix` call of the log. -/
def Call.isWriteMatrix : Call → Bool
  | Call.WriteMatrix _ _ => true
  | _ => false

/-- Recognises a `_WriteMaterialBinding` call of the log. -/
def Call.isWriteMaterialBinding : Call → Bool
  | Call.WriteMaterialBinding _ _ => true
  | _ => false

/-- Recognises a `CreateAttribute` or `Set` call made on the attribute `name` of
`prim`. -/
def Call.isFieldWrite (prim : UsdPrim) (name : String) : Call → Bool
  | Call.CreateAttribute p n _ _ => decide (p = prim ∧ n = name)
  | Call.Set p n _ => decide (p = prim ∧ n = name)
  | _ => false

/-- The attribute left by `CreateAttribute` followed by `Set`: a new attribute of
the given type, or the attribute that was there with the new value. -/
def writtenField (old : Option UsdAttributeData) (t : SdfValueTypeName) (c : Bool)
    (v : VtValue) : UsdAttributeData :=
  match old with
  | some a => { a with value := some v }
  | none => { typeName := t, custom := c, value := some v }

/-- The collaborators never remove a name from `_exportedAttrs`. -/
def KeepsExportedAttrs (c : Collaborators) : Prop :=
  (∀ x n st, st._exportedAttrs ⊆ (c._WriteMatrix x n st)._exportedAttrs)
  ∧ (∀ n x st, st._exportedAttrs ⊆ (c._WriteMaterialBinding n x st)._exportedAttrs)
  ∧ (∀ n x s st, st._exportedAttrs ⊆ (c._WriteArnoldParameters n x s st)._exportedAttrs)

/-- The collaborators of the specification on the demonstration scene. -/
def demoWriter : Collaborators := specCollaborators demoUniverse

/-- The run after the instance `/inst` (node 2) has been translated by a fresh
ginstance translator. -/
def afterInstance : Run :=
  UsdArnoldWriteGinstance.Write demoWriter demoUniverse 2 (freshRun "ArnoldGinstance")

/-! ## Lemmas -/

/-- What one `_ProcessInstanceAttribute` call does, in terms of `diffValue`. -/
theorem processInstanceAttribute_eq (u : AtUniverse) (prim : UsdPrim) (node target : AtNode)
    (attrName : String) (attrType : Int) (r : Run) :
    UsdArnoldWriteGinstance._ProcessInstanceAttribute u prim node target attrName attrType r
      = if (AiNodeEntryLookUpParameter (AiNodeGetNodeEntry u target) attrName).isNone then r
        else
          match diffValue u node attrName attrType, diffValue u target attrName attrType with
          | some (t, v), some (_, w) =>
            if v = w then r.exportedAttrsInsert attrName
            else ((r.CreateAttribute prim attrName t false).Set prim attrName v).exportedAttrsInsert
              attrName
          | _, _ => r := by
  unfold UsdArnoldWriteGinstance._ProcessInstanceAttribute diffValue
  by_cases hd : (AiNodeEntryLookUpParameter (AiNodeGetNodeEntry u target) attrName).isNone
  · simp [hd]
  · by_cases hb : attrType = AI_TYPE_BOOLEAN
    · by_cases hv : AiNodeGetBool u node attrName = AiNodeGetBool u target attrName
      · simp [hd, hb, hv]
      · simp [hd, hb, hv]
    · by_cases hy : attrType = AI_TYPE_BYTE
      · have hne : AI_TYPE_BYTE ≠ AI_TYPE_BOOLEAN := by decide
        subst hy
        by_cases hv : AiNodeGetByte u node attrName = AiNodeGetByte u target attrName
        · simp [hd, hne, hv]
        · simp [hd, hne, hv]
      · simp [hd, hb, hy]

/-! ### The stage operations -/

theorem attributeAt_DefinePrim (s : UsdStage) (p : SdfPath) (tn : String) (q : SdfPath)
    (n : String) :
    attributeAt (UsdStage.DefinePrim s p tn) q n = attributeAt s q n := by
  unfold attributeAt UsdStage.DefinePrim
  by_cases hq : q = p
  · subst hq
    cases h : s q <;> simp [h]
  · cases h : s p <;> simp [h, Function.update_noteq hq]

theorem isSome_DefinePrim (s : UsdStage) (p : SdfPath) (tn : String) :
    ((UsdStage.DefinePrim s p tn) p).isSome = true := by
  unfold UsdStage.DefinePrim
  cases h : s p <;> simp [h]

theorem isSome_CreateAttribute (s : UsdStage) (p : UsdPrim) (n : String)
    (t : SdfValueTypeName) (c : Bool) (q : SdfPath) :
    ((UsdPrim.CreateAttribute s p n t c) q).isSome = (s q).isSome := by
  unfold UsdPrim.CreateAttribute
  cases h : s p with
  | none => simp
  | some d =>
    cases h2 : d.attributes n with
    | some a => simp [h2]
    | none =>
      by_cases hq : q = p
      · subst hq; simp [h, h2]
      · simp [h2, Function.update_noteq hq]

theorem isSome_Set (s : UsdStage) (p : UsdPrim) (n : String) (v : VtValue) (q : SdfPath) :
    ((UsdAttribute.Set s p n v) q).isSome = (s q).isSome := by
  unfold UsdAttribute.Set
  cases h : s p with
  | none => simp
  | some d =>
    cases h2 : d.attributes n with
    | none => simp [h2]
    | some a =>
      by_cases hq : q = p
      · subst hq; simp [h, h2]
      · simp [h2, Function.update_noteq hq]

theorem attributeAt_CreateAttribute_of_ne (s : UsdStage) (p : UsdPrim) (n : String)
    (t : SdfValueTypeName) (c : Bool) (q : SdfPath) (m : String) (h : ¬ (q = p ∧ m = n)) :
    attributeAt (UsdPrim.CreateAttribute s p n t c) q m = attributeAt s q m := by
  unfold attributeAt UsdPrim.CreateAttribute
  cases hs : s p with
  | none => simp
  | some d =>
    cases h2 : d.attributes n with
    | some a => simp [h2]
    | none =>
      by_cases hq : q = p
      · subst hq
        have hm : m ≠ n := fun e => h ⟨rfl, e⟩
        simp [hs, h2, Function.update_noteq hm]
      · simp [h2, Function.update_noteq hq]

theorem attributeAt_Set_of_ne (s : UsdStage) (p : UsdPrim) (n : String) (v : VtValue)
    (q : SdfPath) (m : String) (h : ¬ (q = p ∧ m = n)) :
    attributeAt (UsdAttribute.Set s p n v) q m = attributeAt s q m := by
  unfold attributeAt UsdAttribute.Set
  cases hs : s p with
  | none => simp
  | some d =>
    cases h2 : d.attributes n with
    | none => simp [h2]
    | some a =>
      by_cases hq : q = p
      · subst hq
        have hm : m ≠ n := fun e => h ⟨rfl, e⟩
        simp [hs, h2, Function.update_noteq hm]
      · simp [h2, Function.update_noteq hq]

theorem attributeAt_Set_CreateAttribute (s : UsdStage) (p : UsdPrim) (n : String)
    (t : SdfValueTypeName) (c : Bool) (v : VtValue) (h : (s p).isSome = true) :
    attributeAt (UsdAttribute.Set (UsdPrim.CreateAttribute s p n t c) p n v) p n
      = some (writtenField (attributeAt s p n) t c v) := by
  unfold attributeAt UsdAttribute.Set UsdPrim.CreateAttribute writtenField
  cases hs : s p with
  | none => simp [hs] at h
  | some d =>
    cases h2 : d.attributes n with
    | some a => simp [hs, h2]
    | none => simp [hs, h2]

/-! ### One `_ProcessInstanceAttribute` call -/

theorem process_log (u : AtUniverse) (prim : UsdPrim) (node target : AtNode)
    (attrName : String) (attrType : Int) (r : Run) :
    (UsdArnoldWriteGinstance._ProcessInstanceAttribute u prim node target attrName attrType r).log
      = r.log ++ processCalls u prim node target attrName attrType := by
  rw [processInstanceAttribute_eq]
  unfold processCalls
  by_cases hd : (AiNodeEntryLookUpParameter (AiNodeGetNodeEntry u target) attrName).isNone
  · simp [hd]
  · simp only [hd, if_false, Bool.false_eq_true]
    cases h1 : diffValue u node attrName attrType with
    | none => simp
    | some a =>
      cases h2 : diffValue u target attrName attrType with
      | none => simp
      | some b =>
        obtain ⟨t, v⟩ := a
        obtain ⟨t2, w⟩ := b
        by_cases hv : v = w
        · simp [hv, Run.exportedAttrsInsert]
        · simp [hv, Run.exportedAttrsInsert, Run.Set, Run.CreateAttribute]

theorem process_isSome (u : AtUniverse) (prim : UsdPrim) (node target : AtNode)
    (attrName : String) (attrType : Int) (r : Run) (q : SdfPath) :
    ((UsdArnoldWriteGinstance._ProcessInstanceAttribute u prim node target attrName attrType
        r).st.stage q).isSome = (r.st.stage q).isSome := by
  rw [processInstanceAttribute_eq]
  by_cases hd : (AiNodeEntryLookUpParameter (AiNodeGetNodeEntry u target) attrName).isNone
  · simp [hd]
  · simp only [hd, if_false, Bool.false_eq_true]
    cases h1 : diffValue u node attrName attrType with
    | none => simp
    | some a =>
      cases h2 : diffValue u target attrName attrType with
      | none => simp
      | some b =>
        obtain ⟨t, v⟩ := a
        obtain ⟨t2, w⟩ := b
        by_cases hv : v = w
        · simp [hv, Run.exportedAttrsInsert]
        · simp [hv, Run.exportedAttrsInsert, Run.Set, Run.CreateAttribute, isSome_Set,
            isSome_CreateAttribute]

theorem process_attributeAt_of_ne (u : AtUniverse) (prim : UsdPrim) (node target : AtNode)
    (attrName : String) (attrType : Int) (r : Run) (q : SdfPath) (m : String)
    (h : ¬ (q = prim ∧ m = attrName)) :
    attributeAt (UsdArnoldWriteGinstance._ProcessInstanceAttribute u prim node target attrName
        attrType r).st.stage q m = attributeAt r.st.stage q m := by
  rw [processInstanceAttribute_eq]
  by_cases hd : (AiNodeEntryLookUpParameter (AiNodeGetNodeEntry u target) attrName).isNone
  · simp [hd]
  · simp only [hd, if_false, Bool.false_eq_true]
    cases h1 : diffValue u node attrName attrType with
    | none => simp
    | some a =>
      cases h2 : diffValue u target attrName attrType with
      | none => simp
      | some b =>
        obtain ⟨t, v⟩ := a
        obtain ⟨t2, w⟩ := b
        by_cases hv : v = w
        · simp [hv, Run.exportedAttrsInsert]
        · simp [hv, Run.exportedAttrsInsert, Run.Set, Run.CreateAttribute,
            attributeAt_Set_of_ne _ _ _ _ _ _ h, attributeAt_CreateAttribute_of_ne _ _ _ _ _ _ _ h]

theorem process_attributeAt_same (u : AtUniverse) (prim : UsdPrim) (node target : AtNode)
    (attrName : String) (attrType : Int) (r : Run) (t t2 : SdfValueTypeName) (v w : VtValue)
    (hd : AiNodeEntryLookUpParameter (AiNodeGetNodeEntry u target) attrName ≠ none)
    (hp : (r.st.stage prim).isSome = true)
    (h1 : diffValue u node attrName attrType = some (t, v))
    (h2 : diffValue u target attrName attrType = some (t2, w)) :
    attributeAt (UsdArnoldWriteGinstance._ProcessInstanceAttribute u prim node target attrName
        attrType r).st.stage prim attrName
      = if v = w then attributeAt r.st.stage prim attrName
        else some (writtenField (attributeAt r.st.stage prim attrName) t false v) := by
  rw [processInstanceAttribute_eq]
  have hd2 : (AiNodeEntryLookUpParameter (AiNodeGetNodeEntry u target) attrName).isNone = false := by
    cases h : AiNodeEntryLookUpParameter (AiNodeGetNodeEntry u target) attrName with
    | none => exact absurd h hd
    | some x => rfl
  simp only [hd2, if_false, Bool.false_eq_true, h1, h2]
  by_cases hv : v = w
  · simp [hv, Run.exportedAttrsInsert]
  · simp [hv, Run.exportedAttrsInsert, Run.Set, Run.CreateAttribute,
      attributeAt_Set_CreateAttribute _ _ _ _ _ _ hp]

theorem process_exportedAttrs (u : AtUniverse) (prim : UsdPrim) (node target : AtNode)
    (attrName : String) (attrType : Int) (r : Run) :
    (UsdArnoldWriteGinstance._ProcessInstanceAttribute u prim node target attrName attrType
        r).st._exportedAttrs
      = if (AiNodeEntryLookUpParameter (AiNodeGetNodeEntry u target) attrName).isSome
            ∧ (attrType = AI_TYPE_BOOLEAN ∨ attrType = AI_TYPE_BYTE) then
          r.st._exportedAttrs.insert attrName
        else r.st._exportedAttrs := by
  rw [processInstanceAttribute_eq]
  cases hd : AiNodeEntryLookUpParameter (AiNodeGetNodeEntry u target) attrName with
  | none => simp
  | some x =>
    by_cases hb : attrType = AI_TYPE_BOOLEAN
    · by_cases hv : AiNodeGetBool u node attrName = AiNodeGetBool u target attrName
      · simp [diffValue, hb, hv, Run.exportedAttrsInsert]
      · simp [diffValue, hb, hv, Run.exportedAttrsInsert, Run.Set, Run.CreateAttribute]
    · by_cases hy : attrType = AI_TYPE_BYTE
      · have hne : AI_TYPE_BYTE ≠ AI_TYPE_BOOLEAN := by decide
        subst hy
        by_cases hv : AiNodeGetByte u node attrName = AiNodeGetByte u target attrName
        · simp [diffValue, hne, hv, Run.exportedAttrsInsert]
        · simp [diffValue, hne, hv, Run.exportedAttrsInsert, Run.Set, Run.CreateAttribute]
      · simp [diffValue, hb, hy]

/-! ### A sequence of `_ProcessInstanceAttribute` calls -/

theorem processAll_cons (u : AtUniverse) (prim : UsdPrim) (node target : AtNode)
    (a : String × Int) (l : List (String × Int)) (r : Run) :
    processAll u prim node target (a :: l) r
      = processAll u prim node target l
          (UsdArnoldWriteGinstance._ProcessInstanceAttribute u prim node target a.1 a.2 r) := rfl

theorem processAll_log (u : AtUniverse) (prim : UsdPrim) (node target : AtNode)
    (l : List (String × Int)) (r : Run) :
    (processAll u prim node target l r).log = r.log ++ diffCalls u prim node target l := by
  induction l generalizing r with
  | nil => simp [processAll, diffCalls]
  | cons a l ih => rw [processAll_cons, ih, process_log, diffCalls, List.append_assoc]

theorem processAll_isSome (u : AtUniverse) (prim : UsdPrim) (node target : AtNode)
    (l : List (String × Int)) (r : Run) (q : SdfPath) :
    ((processAll u prim node target l r).st.stage q).isSome = (r.st.stage q).isSome := by
  induction l generalizing r with
  | nil => rfl
  | cons a l ih => rw [processAll_cons, ih, process_isSome]

theorem processAll_attributeAt_of_not_mem (u : AtUniverse) (prim : UsdPrim)
    (node target : AtNode) (l : List (String × Int)) (r : Run) (m : String)
    (h : ∀ a ∈ l, a.1 ≠ m) :
    attributeAt (processAll u prim node target l r).st.stage prim m
      = attributeAt r.st.stage prim m := by
  induction l generalizing r with
  | nil => rfl
  | cons a l ih =>
    rw [processAll_cons, ih _ (fun b hb => h b (List.mem_cons_of_mem _ hb))]
    apply process_attributeAt_of_ne
    intro hcon
    exact h a (List.mem_cons_self _ _) hcon.2.symm

theorem processAll_attributeAt_of_mem (u : AtUniverse) (prim : UsdPrim)
    (node target : AtNode) (l : List (String × Int)) (r : Run) (A : String) (ty : Int)
    (t t2 : SdfValueTypeName) (v w : VtValue)
    (hnd : (l.map Prod.fst).Nodup) (hA : (A, ty) ∈ l)
    (hd : AiNodeEntryLookUpParameter (AiNodeGetNodeEntry u target) A ≠ none)
    (hp : (r.st.stage prim).isSome = true)
    (h1 : diffValue u node A ty = some (t, v))
    (h2 : diffValue u target A ty = some (t2, w)) :
    attributeAt (processAll u prim node target l r).st.stage prim A
      = if v = w then attributeAt r.st.stage prim A
        else some (writtenField (attributeAt r.st.stage prim A) t false v) := by
  induction l generalizing r with
  | nil => simp at hA
  | cons a l ih =>
    rw [List.map_cons, List.nodup_cons] at hnd
    rw [processAll_cons]
    rcases List.mem_cons.mp hA with hEq | hIn
    · subst hEq
      rw [processAll_attributeAt_of_not_mem]
      · exact process_attributeAt_same u prim node target A ty r t t2 v w hd hp h1 h2
      · intro b hb hcon
        have hm : b.1 ∈ l.map Prod.fst := List.mem_map_of_mem Prod.fst hb
        rw [hcon] at hm
        exact hnd.1 hm
    · have hne : a.1 ≠ A := by
        intro hcon
        have hm : (A, ty).1 ∈ l.map Prod.fst := List.mem_map_of_mem Prod.fst hIn
        rw [hcon] at hnd
        exact hnd.1 hm
      rw [ih _ hnd.2 hIn (by rw [process_isSome]; exact hp)]
      rw [process_attributeAt_of_ne]
      intro hcon
      exact hne hcon.2.symm

theorem mem_processCalls (u : AtUniverse) (prim : UsdPrim) (node target : AtNode)
    (attrName : String) (attrType : Int) (x : Call)
    (hx : x ∈ processCalls u prim node target attrName attrType) :
    ∃ t t2 v w, diffValue u node attrName attrType = some (t, v)
      ∧ diffValue u target attrName attrType = some (t2, w) ∧ v ≠ w
      ∧ (x = Call.CreateAttribute prim attrName t false ∨ x = Call.Set prim attrName v) := by
  unfold processCalls at hx
  by_cases hd : (AiNodeEntryLookUpParameter (AiNodeGetNodeEntry u target) attrName).isNone
  · simp [hd] at hx
  · simp only [hd, if_false, Bool.false_eq_true] at hx
    cases h1 : diffValue u node attrName attrType with
    | none => simp [h1] at hx
    | some a =>
      cases h2 : diffValue u target attrName attrType with
      | none => simp [h1, h2] at hx
      | some b =>
        obtain ⟨t, v⟩ := a
        obtain ⟨t2, w⟩ := b
        by_cases hv : v = w
        · simp [h1, h2, hv] at hx
        · simp [h1, h2, hv] at hx
          exact ⟨t, t2, v, w, rfl, rfl, hv, hx⟩

theorem mem_diffCalls (u : AtUniverse) (prim : UsdPrim) (node target : AtNode)
    (l : List (String × Int)) (x : Call) (hx : x ∈ diffCalls u prim node target l) :
    ∃ a ∈ l, x ∈ processCalls u prim node target a.1 a.2 := by
  induction l with
  | nil => simp [diffCalls] at hx
  | cons a l ih =>
    rw [diffCalls, List.mem_append] at hx
    rcases hx with h | h
    · exact ⟨a, List.mem_cons_self _ _, h⟩
    · obtain ⟨b, hb, hxb⟩ := ih h
      exact ⟨b, List.mem_cons_of_mem _ hb, hxb⟩

theorem processCalls_subset_diffCalls (u : AtUniverse) (prim : UsdPrim) (node target : AtNode)
    (l : List (String × Int)) (a : String × Int) (ha : a ∈ l) (x : Call)
    (hx : x ∈ processCalls u prim node target a.1 a.2) :
    x ∈ diffCalls u prim node target l := by
  induction l with
  | nil => simp at ha
  | cons b l ih =>
    rw [diffCalls, List.mem_append]
    rcases List.mem_cons.mp ha with h | h
    · subst h; exact Or.inl hx
    · exact Or.inr (ih h)

theorem diffValue_type_eq (u : AtUniverse) (node target : AtNode) (attrName : String)
    (attrType : Int) (t t2 : SdfValueTypeName) (v w : VtValue)
    (h1 : diffValue u node attrName attrType = some (t, v))
    (h2 : diffValue u target attrName attrType = some (t2, w)) : t = t2 := by
  unfold diffValue at h1 h2
  split_ifs at h1 h2
  · simp only [Option.some.injEq, Prod.mk.injEq] at h1 h2
    rw [← h1.1, ← h2.1]
  · simp only [Option.some.injEq, Prod.mk.injEq] at h1 h2
    rw [← h1.1, ← h2.1]

theorem allowList_nodup : (allowList.map Prod.fst).Nodup := by decide

theorem allowList_diffValue_isSome (u : AtUniverse) (node : AtNode) (A : String) (ty : Int)
    (hA : (A, ty) ∈ allowList) : ∃ t v, diffValue u node A ty = some (t, v) := by
  have hty : ty = AI_TYPE_BOOLEAN ∨ ty = AI_TYPE_BYTE := by
    simp [allowList] at hA
    rcases hA with h | h | h | h | h | h <;> simp [h.2]
  unfold diffValue
  rcases hty with h | h
  · rw [if_pos h]
    exact ⟨_, _, rfl⟩
  · have hne : AI_TYPE_BYTE ≠ AI_TYPE_BOOLEAN := by decide
    subst h
    rw [if_neg hne, if_pos rfl]
    exact ⟨_, _, rfl⟩

/-! ### The translators -/

theorem ginstance_Write_of_active (c : Collaborators) (u : AtUniverse) (node : AtNode) (r : Run)
    (h : primIsValidAndActive
      (UsdStage.GetPrimAtPath r.st.stage (c.GetArnoldNodeName node r.st)) = true) :
    UsdArnoldWriteGinstance.Write c u node r = r := by
  unfold UsdArnoldWriteGinstance.Write
  simp [h]

theorem arnoldType_Write_of_active (c : Collaborators) (u : AtUniverse) (node : AtNode) (r : Run)
    (h : primIsValidAndActive
      (UsdStage.GetPrimAtPath r.st.stage (c.GetArnoldNodeName node r.st)) = true) :
    UsdArnoldWriteArnoldType.Write c u node r = r := by
  unfold UsdArnoldWriteArnoldType.Write
  simp [h]

theorem filter_eq_nil_of_forall (p : Call → Bool) (l : List Call)
    (h : ∀ x ∈ l, p x = false) : l.filter p = [] := by
  induction l with
  | nil => rfl
  | cons a l ih =>
    rw [List.filter_cons, h a (List.mem_cons_self _ _)]
    simpa using ih (fun x hx => h x (List.mem_cons_of_mem _ hx))

theorem ginstance_Write_of_not_active (c : Collaborators) (u : AtUniverse) (node : AtNode)
    (r : Run)
    (h : primIsValidAndActive
      (UsdStage.GetPrimAtPath r.st.stage (c.GetArnoldNodeName node r.st)) = false) :
    UsdArnoldWriteGinstance.Write c u node r
      = (((match AiNodeGetPtr u node "node" with
            | some target =>
              processAll u (c.GetArnoldNodeName node r.st) node target allowList
                (r.DefinePrim (c.GetArnoldNodeName node r.st) r.st._usdName)
            | none => r.DefinePrim (c.GetArnoldNodeName node r.st) r.st._usdName).WriteMatrix c
              (c.GetArnoldNodeName node r.st) node).WriteMaterialBinding c node
              (c.GetArnoldNodeName node r.st)).WriteArnoldParameters c node
              (c.GetArnoldNodeName node r.st) "arnold" := by
  unfold UsdArnoldWriteGinstance.Write
  simp only [h, Bool.false_eq_true, if_false]
  cases AiNodeGetPtr u node "node" <;> rfl

theorem ginstance_Write_log (c : Collaborators) (u : AtUniverse) (node : AtNode)
    (r : Run)
    (h : primIsValidAndActive
      (UsdStage.GetPrimAtPath r.st.stage (c.GetArnoldNodeName node r.st)) = false) :
    (UsdArnoldWriteGinstance.Write c u node r).log
      = r.log ++ (Call.DefinePrim (c.GetArnoldNodeName node r.st) r.st._usdName ::
          ((match AiNodeGetPtr u node "node" with
            | some target => diffCalls u (c.GetArnoldNodeName node r.st) node target allowList
            | none => []) ++
          [Call.WriteMatrix (c.GetArnoldNodeName node r.st) node,
           Call.WriteMaterialBinding node (c.GetArnoldNodeName node r.st),
           Call.WriteArnoldParameters node (c.GetArnoldNodeName node r.st) "arnold"])) := by
  rw [ginstance_Write_of_not_active c u node r h]
  cases AiNodeGetPtr u node "node" with
  | none => simp [Run.WriteArnoldParameters, Run.WriteMaterialBinding, Run.WriteMatrix, Run.DefinePrim]
  | some t =>
    simp [Run.WriteArnoldParameters, Run.WriteMaterialBinding, Run.WriteMatrix, processAll_log,
      Run.DefinePrim]

theorem diffCalls_filter (u : AtUniverse) (prim : UsdPrim) (node target : AtNode)
    (l : List (String × Int)) (p : Call → Bool)
    (hc : ∀ a b t k, p (Call.CreateAttribute a b t k) = false)
    (hs : ∀ a b v, p (Call.Set a b v) = false) :
    (diffCalls u prim node target l).filter p = [] := by
  apply filter_eq_nil_of_forall
  intro x hx
  obtain ⟨a, _, hxa⟩ := mem_diffCalls u prim node target l x hx
  obtain ⟨t, t2, v, w, _, _, _, hcase⟩ := mem_processCalls u prim node target a.1 a.2 x hxa
  rcases hcase with h | h
  · rw [h]; exact hc _ _ _ _
  · rw [h]; exact hs _ _ _

theorem allowList_type_unique :
    ∀ a ∈ allowList, ∀ b ∈ allowList, a.1 = b.1 → a.2 = b.2 := by decide

theorem processCalls_of_differ (u : AtUniverse) (prim : UsdPrim) (node target : AtNode)
    (attrName : String) (attrType : Int) (t t2 : SdfValueTypeName) (v w : VtValue)
    (hd : AiNodeEntryLookUpParameter (AiNodeGetNodeEntry u target) attrName ≠ none)
    (h1 : diffValue u node attrName attrType = some (t, v))
    (h2 : diffValue u target attrName attrType = some (t2, w)) (hv : v ≠ w) :
    processCalls u prim node target attrName attrType
      = [Call.CreateAttribute prim attrName t false, Call.Set prim attrName v] := by
  unfold processCalls
  have hd2 : (AiNodeEntryLookUpParameter (AiNodeGetNodeEntry u target) attrName).isNone = false := by
    cases h : AiNodeEntryLookUpParameter (AiNodeGetNodeEntry u target) attrName with
    | none => exact absurd h hd
    | some x => rfl
  simp [hd2, h1, h2, hv]

theorem writtenField_value (old : Option UsdAttributeData) (t : SdfValueTypeName) (c : Bool)
    (v : VtValue) : (writtenField old t c v).value = some v := by
  cases old <;> rfl

/-! ### The exported-attribute set -/

theorem process_exportedAttrs_subset (u : AtUniverse) (prim : UsdPrim) (node target : AtNode)
    (attrName : String) (attrType : Int) (r : Run) :
    r.st._exportedAttrs ⊆
      (UsdArnoldWriteGinstance._ProcessInstanceAttribute u prim node target attrName
        attrType r).st._exportedAttrs := by
  rw [process_exportedAttrs]
  split_ifs
  · intro x hx
    exact List.mem_insert_of_mem hx
  · exact fun x hx => hx

theorem processAll_exportedAttrs_subset (u : AtUniverse) (prim : UsdPrim)
    (node target : AtNode) (l : List (String × Int)) (r : Run) :
    r.st._exportedAttrs ⊆ (processAll u prim node target l r).st._exportedAttrs := by
  induction l generalizing r with
  | nil => exact fun x hx => hx
  | cons a l ih =>
    rw [processAll_cons]
    exact fun x hx => ih _ (process_exportedAttrs_subset u prim node target a.1 a.2 r hx)

theorem processAll_exportedAttrs_mem (u : AtUniverse) (prim : UsdPrim)
    (node target : AtNode) (l : List (String × Int)) (r : Run) (A : String) (ty : Int)
    (hA : (A, ty) ∈ l)
    (hd : AiNodeEntryLookUpParameter (AiNodeGetNodeEntry u target) A ≠ none)
    (hty : ty = AI_TYPE_BOOLEAN ∨ ty = AI_TYPE_BYTE) :
    A ∈ (processAll u prim node target l r).st._exportedAttrs := by
  induction l generalizing r with
  | nil => simp at hA
  | cons a l ih =>
    rw [processAll_cons]
    rcases List.mem_cons.mp hA with hEq | hIn
    · subst hEq
      apply processAll_exportedAttrs_subset
      rw [process_exportedAttrs]
      have hs : (AiNodeEntryLookUpParameter (AiNodeGetNodeEntry u target) A).isSome = true := by
        cases h : AiNodeEntryLookUpParameter (AiNodeGetNodeEntry u target) A with
        | none => exact absurd h hd
        | some x => rfl
      rw [if_pos ⟨hs, hty⟩]
      exact List.mem_insert_self _ _
    · exact ih _ hIn

theorem allowList_type (A : String) (ty : Int) (hA : (A, ty) ∈ allowList) :
    ty = AI_TYPE_BOOLEAN ∨ ty = AI_TYPE_BYTE := by
  simp [allowList] at hA
  rcases hA with h | h | h | h | h | h <;> simp [h.2]

theorem specCollaborators_keepsExportedAttrs (u : AtUniverse) :
    KeepsExportedAttrs (specCollaborators u) := by
  refine ⟨?_, ?_, ?_⟩
  · intro x n st
    simp only [specCollaborators, specWriteMatrix]
    split <;> exact fun y hy => hy
  · intro n x st
    simp only [specCollaborators, specWriteMaterialBinding]
    split <;> exact fun y hy => hy
  · intro n x s st
    exact fun y hy => hy

/-- Idempotence of the instance translator, in the form of C1: when the primitive is
present and active at the resolved path after a first `UsdArnoldWriteGinstance::Write`,
a second `Write` of the same node returns the same run. -/
theorem ginstance_Write_idempotent (c : Collaborators) (u : AtUniverse) (node : AtNode)
    (r : Run)
    (h : primIsValidAndActive
      (UsdStage.GetPrimAtPath (UsdArnoldWriteGinstance.Write c u node r).st.stage
        (c.GetArnoldNodeName node (UsdArnoldWriteGinstance.Write c u node r).st)) = true) :
    UsdArnoldWriteGinstance.Write c u node (UsdArnoldWriteGinstance.Write c u node r)
      = UsdArnoldWriteGinstance.Write c u node r :=
  ginstance_Write_of_active c u node _ h

/-- `UsdArnoldWriteGinstance::Write` itself never clears the exported set:
with collaborators that do not remove names from it, every name in the set before
the call is still in it afterwards, and a call that is not short-circuited adds
every allow-listed name that the referenced node declares.  Emptying the set between
two translations is left to the life cycle around `Write`. -/
theorem ginstance_Write_keeps_exportedAttrs (c : Collaborators) (u : AtUniverse) (node : AtNode)
    (r : Run) (hk : KeepsExportedAttrs c) :
    r.st._exportedAttrs ⊆ (UsdArnoldWriteGinstance.Write c u node r).st._exportedAttrs
    ∧ (primIsValidAndActive
          (UsdStage.GetPrimAtPath r.st.stage (c.GetArnoldNodeName node r.st)) = false →
        ∀ target A ty, AiNodeGetPtr u node "node" = some target → (A, ty) ∈ allowList →
          AiNodeEntryLookUpParameter (AiNodeGetNodeEntry u target) A ≠ none →
          A ∈ (UsdArnoldWriteGinstance.Write c u node r).st._exportedAttrs) := by
  obtain ⟨hM, hB, hP⟩ := hk
  constructor
  · by_cases h : primIsValidAndActive
        (UsdStage.GetPrimAtPath r.st.stage (c.GetArnoldNodeName node r.st)) = true
    · rw [ginstance_Write_of_active c u node r h]
      exact fun x hx => hx
    · have h2 : primIsValidAndActive
          (UsdStage.GetPrimAtPath r.st.stage (c.GetArnoldNodeName node r.st)) = false := by
        simpa using h
      rw [ginstance_Write_of_not_active c u node r h2]
      intro x hx
      apply hP
      apply hB
      apply hM
      cases AiNodeGetPtr u node "node" with
      | none => exact hx
      | some t => exact processAll_exportedAttrs_subset _ _ _ _ _ _ hx
  · intro h2 target A ty hptr hA hd
    rw [ginstance_Write_of_not_active c u node r h2, hptr]
    apply hP
    apply hB
    apply hM
    exact processAll_exportedAttrs_mem _ _ _ _ _ _ A ty hA hd (allowList_type A ty hA)

/-! ## Main results -/

/-- C1. Idempotence of the generic translator: when the primitive is present and
active at the resolved path of the node after a first
`UsdArnoldWriteArnoldType::Write`, a second `Write` of the same node returns the
very same run: same stage, same translator members, and not one more logged call
(no `DefinePrim`, no transform write, no material binding, no attribute export). -/
theorem C1_generic_write_idempotent (c : Collaborators) (u : AtUniverse) (node : AtNode)
    (r : Run)
    (h : primIsValidAndActive
      (UsdStage.GetPrimAtPath (UsdArnoldWriteArnoldType.Write c u node r).st.stage
        (c.GetArnoldNodeName node (UsdArnoldWriteArnoldType.Write c u node r).st)) = true) :
    UsdArnoldWriteArnoldType.Write c u node (UsdArnoldWriteArnoldType.Write c u node r)
      = UsdArnoldWriteArnoldType.Write c u node r
    ∧ (UsdArnoldWriteArnoldType.Write c u node
        (UsdArnoldWriteArnoldType.Write c u node r)).log.drop
          (UsdArnoldWriteArnoldType.Write c u node r).log.length = [] := by
  have hw := arnoldType_Write_of_active c u node _ h
  refine ⟨hw, ?_⟩
  rw [hw]
  exact List.drop_length _

/-- C1, on the demonstration scene: the shape `/mesh` translated twice by a fresh
generic translator. -/
theorem C1_witness :
    primIsValidAndActive
      (UsdStage.GetPrimAtPath
        (UsdArnoldWriteArnoldType.Write demoWriter demoUniverse 1
          (freshRun "ArnoldPolymesh")).st.stage
        (demoWriter.GetArnoldNodeName 1
          (UsdArnoldWriteArnoldType.Write demoWriter demoUniverse 1
            (freshRun "ArnoldPolymesh")).st)) = true
    ∧ UsdArnoldWriteArnoldType.Write demoWriter demoUniverse 1
        (UsdArnoldWriteArnoldType.Write demoWriter demoUniverse 1 (freshRun "ArnoldPolymesh"))
      = UsdArnoldWriteArnoldType.Write demoWriter demoUniverse 1 (freshRun "ArnoldPolymesh") :=
  ⟨by decide,
   (C1_generic_write_idempotent demoWriter demoUniverse 1 (freshRun "ArnoldPolymesh")
      (by decide)).1⟩

/-- C2. Diff minimality: for an instance whose `node` pointer is `target`, on a
path without an active primitive, and for an allow-listed attribute `A` of type `ty`
that the target declares, consider the run reached by
`UsdArnoldWriteGinstance::Write` after the six `_ProcessInstanceAttribute` calls.
If the instance and the target hold the same value, the attribute `A` of the
primitive is the one it had before `Write` and no `CreateAttribute` or `Set` was
made on `A`; if the values differ, `CreateAttribute` and `Set` were called with the
plain name `A` and the primitive has a field `A` holding the value of the
instance. -/
theorem C2_diff_minimality (c : Collaborators) (u : AtUniverse) (node target : AtNode)
    (r : Run) (A : String) (ty : Int)
    (hA : (A, ty) ∈ allowList)
    (hptr : AiNodeGetPtr u node "node" = some target)
    (hdecl : AiNodeEntryLookUpParameter (AiNodeGetNodeEntry u target) A ≠ none)
    (hno : primIsValidAndActive
      (UsdStage.GetPrimAtPath r.st.stage (c.GetArnoldNodeName node r.st)) = false) :
    let path := c.GetArnoldNodeName node r.st
    let d := UsdArnoldWriteGinstance.Write_diff u path node target
      (r.DefinePrim path r.st._usdName)
    let calls := d.log.drop r.log.length
    UsdArnoldWriteGinstance.Write c u node r
      = ((d.WriteMatrix c path node).WriteMaterialBinding c node path).WriteArnoldParameters
          c node path "arnold"
    ∧ (diffValue u node A ty = diffValue u target A ty →
        attributeAt d.st.stage path A = attributeAt r.st.stage path A
        ∧ ∀ x ∈ calls, Call.isFieldWrite path A x = false)
    ∧ (diffValue u node A ty ≠ diffValue u target A ty →
        ∃ t v, diffValue u node A ty = some (t, v)
          ∧ Call.CreateAttribute path A t false ∈ calls
          ∧ Call.Set path A v ∈ calls
          ∧ (attributeAt d.st.stage path A).bind (fun a => a.value) = some v
          ∧ (attributeAt r.st.stage path A = none →
              attributeAt d.st.stage path A
                = some { typeName := t, custom := false, value := some v })) := by
  intro path d calls
  obtain ⟨t, v, h1⟩ := allowList_diffValue_isSome u node A ty hA
  obtain ⟨t2, w, h2⟩ := allowList_diffValue_isSome u target A ty hA
  have ht : t = t2 := diffValue_type_eq u node target A ty t t2 v w h1 h2
  have hp : ((r.DefinePrim path r.st._usdName).st.stage path).isSome = true :=
    isSome_DefinePrim r.st.stage path r.st._usdName
  have hattr : attributeAt d.st.stage path A
      = if v = w then attributeAt r.st.stage path A
        else some (writtenField (attributeAt r.st.stage path A) t false v) := by
    have h := processAll_attributeAt_of_mem u path node target allowList
      (r.DefinePrim path r.st._usdName) A ty t t2 v w allowList_nodup hA hdecl hp h1 h2
    have hdef : attributeAt (r.DefinePrim path r.st._usdName).st.stage path A
        = attributeAt r.st.stage path A := attributeAt_DefinePrim _ _ _ _ _
    rw [hdef] at h
    exact h
  have hcalls : calls = Call.DefinePrim path r.st._usdName ::
      diffCalls u path node target allowList := by
    have hl : d.log = (r.DefinePrim path r.st._usdName).log
        ++ diffCalls u path node target allowList :=
      processAll_log u path node target allowList _
    simp only [calls, hl, Run.DefinePrim, List.append_assoc, List.drop_left]
    rfl
  refine ⟨?_, ?_, ?_⟩
  · rw [ginstance_Write_of_not_active c u node r hno, hptr]
    rfl
  · intro heq
    have hvw : v = w := by
      rw [h1, h2] at heq
      simp only [Option.some.injEq, Prod.mk.injEq] at heq
      exact heq.2
    refine ⟨by rw [hattr, if_pos hvw], ?_⟩
    intro x hx
    rw [hcalls] at hx
    rcases List.mem_cons.mp hx with hx | hx
    · rw [hx]; rfl
    · obtain ⟨a, ha, hxa⟩ := mem_diffCalls u path node target allowList x hx
      obtain ⟨t3, t4, v3, w3, h3, h4, hne, hcase⟩ :=
        mem_processCalls u path node target a.1 a.2 x hxa
      have hname : a.1 ≠ A := by
        intro hcon
        have hty : a.2 = ty := allowList_type_unique a ha (A, ty) hA hcon
        rw [hcon, hty, h1] at h3
        rw [hcon, hty, h2] at h4
        simp only [Option.some.injEq, Prod.mk.injEq] at h3 h4
        exact hne (by rw [← h3.2, ← h4.2]; exact hvw)
      rcases hcase with hc | hc <;> rw [hc] <;> simp [Call.isFieldWrite, hname]
  · intro hne
    have hvw : v ≠ w := by
      intro hcon
      apply hne
      rw [h1, h2, ht, hcon]
    have hpc := processCalls_of_differ u path node target A ty t t2 v w hdecl h1 h2 hvw
    have hsub : ∀ x ∈ processCalls u path node target A ty, x ∈ calls := by
      intro x hx
      rw [hcalls]
      exact List.mem_cons_of_mem _
        (processCalls_subset_diffCalls u path node target allowList (A, ty) hA x hx)
    refine ⟨t, v, h1, hsub _ (by rw [hpc]; simp), hsub _ (by rw [hpc]; simp), ?_, ?_⟩
    · rw [hattr, if_neg hvw]
      simp [writtenField_value]
    · intro hnone
      rw [hattr, if_neg hvw, hnone]
      rfl

/-- C2, on the demonstration scene (Scenarios 2 and 3): the instance `/inst` has
`visibility = 0` and `sidedness = 255`, its target `/mesh` has `visibility = 255`
and `sidedness = 255`; the diff step leaves the field `visibility = 0` on `/inst`
and no field `sidedness`. -/
theorem C2_witness :
    ("visibility", AI_TYPE_BYTE) ∈ allowList
    ∧ AiNodeGetPtr demoUniverse 2 "node" = some 1
    ∧ AiNodeEntryLookUpParameter (AiNodeGetNodeEntry demoUniverse 1) "visibility" ≠ none
    ∧ primIsValidAndActive
        (UsdStage.GetPrimAtPath (freshRun "ArnoldGinstance").st.stage
          (demoWriter.GetArnoldNodeName 2 (freshRun "ArnoldGinstance").st)) = false
    ∧ diffValue demoUniverse 2 "visibility" AI_TYPE_BYTE
        ≠ diffValue demoUniverse 1 "visibility" AI_TYPE_BYTE
    ∧ attributeAt
        (UsdArnoldWriteGinstance.Write_diff demoUniverse "/inst" 2 1
          ((freshRun "ArnoldGinstance").DefinePrim "/inst" "ArnoldGinstance")).st.stage
        "/inst" "visibility"
        = some { typeName := SdfValueTypeName.UChar, custom := false,
                 value := some (VtValue.uchar 0) }
    ∧ diffValue demoUniverse 2 "sidedness" AI_TYPE_BYTE
        = diffValue demoUniverse 1 "sidedness" AI_TYPE_BYTE
    ∧ attributeAt
        (UsdArnoldWriteGinstance.Write_diff demoUniverse "/inst" 2 1
          ((freshRun "ArnoldGinstance").DefinePrim "/inst" "ArnoldGinstance")).st.stage
        "/inst" "sidedness" = none := by
  have h := C2_diff_minimality demoWriter demoUniverse 2 1 (freshRun "ArnoldGinstance")
    "visibility" AI_TYPE_BYTE (by decide) (by decide) (by decide) (by decide)
  have hs := C2_diff_minimality demoWriter demoUniverse 2 1 (freshRun "ArnoldGinstance")
    "sidedness" AI_TYPE_BYTE (by decide) (by decide) (by decide) (by decide)
  obtain ⟨t, v, h1, _, _, _, h5⟩ := h.2.2 (by decide)
  refine ⟨by decide, by decide, by decide, by decide, by decide, ?_, by decide,
    (hs.2.1 (by decide)).1⟩
  have htv : (t, v) = (SdfValueTypeName.UChar, VtValue.uchar 0) := by
    have h0 : diffValue demoUniverse 2 "visibility" AI_TYPE_BYTE
        = some (SdfValueTypeName.UChar, VtValue.uchar 0) := by decide
    rw [h0] at h1
    exact (Option.some.inj h1).symm
  have h6 := h5 (by decide)
  rw [(Prod.mk.inj htv).1, (Prod.mk.inj htv).2] at h6
  exact h6

/-- C3. Diff absence-safety: when the node entry of the target does not declare a
parameter named `attrName`, `_ProcessInstanceAttribute` returns the run it was
given: no field is created, the primitive, the exported set and the log are
unchanged, whatever the value held by the instance and whatever the type. -/
theorem C3_diff_absence_safety (u : AtUniverse) (prim : UsdPrim) (node target : AtNode)
    (attrName : String) (attrType : Int) (r : Run)
    (h : AiNodeEntryLookUpParameter (AiNodeGetNodeEntry u target) attrName = none) :
    UsdArnoldWriteGinstance._ProcessInstanceAttribute u prim node target attrName attrType r
      = r := by
  unfold UsdArnoldWriteGinstance._ProcessInstanceAttribute
  simp [h]

/-- C3, on the demonstration scene: the driver (node 4) declares no `visibility`. -/
theorem C3_witness :
    AiNodeEntryLookUpParameter (AiNodeGetNodeEntry demoUniverse 4) "visibility" = none
    ∧ UsdArnoldWriteGinstance._ProcessInstanceAttribute demoUniverse "/inst" 2 4
        "visibility" AI_TYPE_BYTE
        ((freshRun "ArnoldGinstance").DefinePrim "/inst" "ArnoldGinstance")
      = (freshRun "ArnoldGinstance").DefinePrim "/inst" "ArnoldGinstance" :=
  ⟨by decide,
   C3_diff_absence_safety demoUniverse "/inst" 2 4 "visibility" AI_TYPE_BYTE _ (by decide)⟩

/-- C5. Spatial unconditionality for instances: on a path without an active
primitive, the calls made by `UsdArnoldWriteGinstance::Write` start with the
`DefinePrim` of the primitive and contain exactly one `_WriteMatrix` and exactly
one `_WriteMaterialBinding`, both on that primitive and for that node, whether the
`node` pointer is null or not and whatever the diff step wrote.  The primitive is
on the stage when they run, and the final state is the one produced by
`_WriteMatrix`, then `_WriteMaterialBinding`, then `_WriteArnoldParameters`, applied
to the state `d` left by `DefinePrim` and the diff step. -/
theorem C5_instance_spatial_unconditional (c : Collaborators) (u : AtUniverse)
    (node : AtNode) (r : Run)
    (h : primIsValidAndActive
      (UsdStage.GetPrimAtPath r.st.stage (c.GetArnoldNodeName node r.st)) = false) :
    let path := c.GetArnoldNodeName node r.st
    let d :=
      match AiNodeGetPtr u node "node" with
      | some target =>
        UsdArnoldWriteGinstance.Write_diff u path node target (r.DefinePrim path r.st._usdName)
      | none => r.DefinePrim path r.st._usdName
    let calls := (UsdArnoldWriteGinstance.Write c u node r).log.drop r.log.length
    calls.head? = some (Call.DefinePrim path r.st._usdName)
    ∧ calls.filter Call.isWriteMatrix = [Call.WriteMatrix path node]
    ∧ calls.filter Call.isWriteMaterialBinding = [Call.WriteMaterialBinding node path]
    ∧ (d.st.stage path).isSome = true
    ∧ (UsdArnoldWriteGinstance.Write c u node r).st
        = c._WriteArnoldParameters node path "arnold"
            (c._WriteMaterialBinding node path (c._WriteMatrix path node d.st)) := by
  intro path d calls
  have hcalls : calls = Call.DefinePrim path r.st._usdName ::
          ((match AiNodeGetPtr u node "node" with
            | some target => diffCalls u path node target allowList
            | none => []) ++
          [Call.WriteMatrix path node, Call.WriteMaterialBinding node path,
           Call.WriteArnoldParameters node path "arnold"]) := by
    simp only [calls, ginstance_Write_log c u node r h, List.drop_left]
  rw [hcalls]
  refine ⟨rfl, ?_, ?_, ?_, ?_⟩
  · cases AiNodeGetPtr u node "node" with
    | none => simp [Call.isWriteMatrix]
    | some t =>
      simp only [List.filter_cons, List.filter_append, Call.isWriteMatrix]
      rw [diffCalls_filter u path node t allowList _ (fun _ _ _ _ => rfl) (fun _ _ _ => rfl)]
      simp
  · cases AiNodeGetPtr u node "node" with
    | none => simp [Call.isWriteMaterialBinding]
    | some t =>
      simp only [List.filter_cons, List.filter_append, Call.isWriteMaterialBinding]
      rw [diffCalls_filter u path node t allowList _ (fun _ _ _ _ => rfl) (fun _ _ _ => rfl)]
      simp
  · simp only [d]
    cases AiNodeGetPtr u node "node" with
    | none => exact isSome_DefinePrim r.st.stage path r.st._usdName
    | some t =>
      have hp := processAll_isSome u path node t allowList (r.DefinePrim path r.st._usdName) path
      exact hp.trans (isSome_DefinePrim r.st.stage path r.st._usdName)
  · rw [ginstance_Write_of_not_active c u node r h]
    simp only [d]
    cases AiNodeGetPtr u node "node" <;> rfl

/-- C5, on the demonstration scene: the instance `/inst`, whose `visibility` and
`matte` differ from those of its target. -/
theorem C5_witness :
    primIsValidAndActive
        (UsdStage.GetPrimAtPath (freshRun "ArnoldGinstance").st.stage
          (demoWriter.GetArnoldNodeName 2 (freshRun "ArnoldGinstance").st)) = false
    ∧ ((UsdArnoldWriteGinstance.Write demoWriter demoUniverse 2
          (freshRun "ArnoldGinstance")).log.drop
          (freshRun "ArnoldGinstance").log.length).filter Call.isWriteMatrix
        = [Call.WriteMatrix (demoWriter.GetArnoldNodeName 2 (freshRun "ArnoldGinstance").st) 2]
    ∧ ((UsdArnoldWriteGinstance.Write demoWriter demoUniverse 2
          (freshRun "ArnoldGinstance")).log.drop
          (freshRun "ArnoldGinstance").log.length).filter Call.isWriteMaterialBinding
        = [Call.WriteMaterialBinding 2
            (demoWriter.GetArnoldNodeName 2 (freshRun "ArnoldGinstance").st)]
    ∧ (UsdArnoldWriteGinstance.Write demoWriter demoUniverse 2
          (freshRun "ArnoldGinstance")).st
        = demoWriter._WriteArnoldParameters 2 "/inst" "arnold"
            (demoWriter._WriteMaterialBinding 2 "/inst"
              (demoWriter._WriteMatrix "/inst" 2
                (UsdArnoldWriteGinstance.Write_diff demoUniverse "/inst" 2 1
                  ((freshRun "ArnoldGinstance").DefinePrim "/inst"
                    "ArnoldGinstance")).st)) :=
  ⟨by decide,
   (C5_instance_spatial_unconditional demoWriter demoUniverse 2 (freshRun "ArnoldGinstance")
      (by decide)).2.1,
   (C5_instance_spatial_unconditional demoWriter demoUniverse 2 (freshRun "ArnoldGinstance")
      (by decide)).2.2.1,
   (C5_instance_spatial_unconditional demoWriter demoUniverse 2 (freshRun "ArnoldGinstance")
      (by decide)).2.2.2.2⟩

/-- C6, as stated, fails: the instance `/loose` (node 3) has a null `node` pointer
and no primitive at its path, yet `UsdArnoldWriteGinstance::Write` calls the
generic attribute writer `_WriteArnoldParameters` (line 129), which exports the
allow-listed attribute `visibility` as `arnold:visibility`. -/
theorem C6_counterexample :
    AiNodeGetPtr demoUniverse 3 "node" = none
    ∧ primIsValidAndActive
        (UsdStage.GetPrimAtPath (freshRun "ArnoldGinstance").st.stage
          (demoWriter.GetArnoldNodeName 3 (freshRun "ArnoldGinstance").st)) = false
    ∧ Call.WriteArnoldParameters 3 "/loose" "arnold"
        ∈ (UsdArnoldWriteGinstance.Write demoWriter demoUniverse 3
            (freshRun "ArnoldGinstance")).log
    ∧ attributeAt
        (UsdArnoldWriteGinstance.Write demoWriter demoUniverse 3
          (freshRun "ArnoldGinstance")).st.stage "/loose" "arnold:visibility"
        = some { typeName := SdfValueTypeName.UChar, custom := false,
                 value := some (VtValue.uchar 255) } := by
  decide

/-- C6, amended. For an instance whose `node` pointer is null, on a path without an
active primitive, `UsdArnoldWriteGinstance::Write` makes exactly four calls:
`DefinePrim`, `_WriteMatrix`, `_WriteMaterialBinding` and the generic attribute
writer `_WriteArnoldParameters` with the scope `arnold`.  No
`_ProcessInstanceAttribute` runs: the state handed to the collaborators is the
initial one with the primitive defined. -/
theorem C6_instance_without_reference_amended (c : Collaborators) (u : AtUniverse)
    (node : AtNode) (r : Run)
    (hptr : AiNodeGetPtr u node "node" = none)
    (h : primIsValidAndActive
      (UsdStage.GetPrimAtPath r.st.stage (c.GetArnoldNodeName node r.st)) = false) :
    let path := c.GetArnoldNodeName node r.st
    UsdArnoldWriteGinstance.Write c u node r
      = { st := c._WriteArnoldParameters node path "arnold"
                  (c._WriteMaterialBinding node path
                    (c._WriteMatrix path node
                      { r.st with stage := UsdStage.DefinePrim r.st.stage path r.st._usdName })),
          log := r.log ++ [Call.DefinePrim path r.st._usdName, Call.WriteMatrix path node,
            Call.WriteMaterialBinding node path,
            Call.WriteArnoldParameters node path "arnold"] } := by
  intro path
  rw [ginstance_Write_of_not_active c u node r h, hptr]
  simp [Run.WriteArnoldParameters, Run.WriteMaterialBinding, Run.WriteMatrix, Run.DefinePrim, path]

/-- C6 amended, on the demonstration scene: the instance `/loose`. -/
theorem C6_witness :
    AiNodeGetPtr demoUniverse 3 "node" = none
    ∧ primIsValidAndActive
        (UsdStage.GetPrimAtPath (freshRun "ArnoldGinstance").st.stage
          (demoWriter.GetArnoldNodeName 3 (freshRun "ArnoldGinstance").st)) = false
    ∧ (UsdArnoldWriteGinstance.Write demoWriter demoUniverse 3
          (freshRun "ArnoldGinstance")).log
        = [Call.DefinePrim "/loose" "ArnoldGinstance", Call.WriteMatrix "/loose" 3,
           Call.WriteMaterialBinding 3 "/loose",
           Call.WriteArnoldParameters 3 "/loose" "arnold"] :=
  ⟨by decide, by decide,
   congrArg Run.log
     (C6_instance_without_reference_amended demoWriter demoUniverse 3 (freshRun "ArnoldGinstance")
        (by decide) (by decide))⟩

/-- C7. Kind dispatch of the generic translator: on a path without an active
primitive, `UsdArnoldWriteArnoldType::Write` defines the primitive and then, for a
shape, calls `_WriteMatrix`, `_WriteMaterialBinding` and `_WriteArnoldParameters`;
for a camera or a light, `_WriteMatrix` and `_WriteArnoldParameters`; for every
other kind, `_WriteArnoldParameters` alone.  In each case the calls are exactly
these and the final state is the one these collaborators produce, in that order,
from the state with the primitive defined.  So the transform is written exactly
for shapes, cameras and lights, and the material binding exactly for shapes. -/
theorem C7_generic_kind_dispatch (c : Collaborators) (u : AtUniverse) (node : AtNode)
    (r : Run)
    (h : primIsValidAndActive
      (UsdStage.GetPrimAtPath r.st.stage (c.GetArnoldNodeName node r.st)) = false) :
    let path := c.GetArnoldNodeName node r.st
    let kind := AiNodeEntryGetType (AiNodeGetNodeEntry u node)
    let w := UsdArnoldWriteArnoldType.Write c u node r
    let calls := w.log.drop r.log.length
    let defined : TranslatorState :=
      { r.st with stage := UsdStage.DefinePrim r.st.stage path r.st._usdName }
    (defined.stage path).isSome = true ∧
    (kind = AI_NODE_SHAPE →
      calls = [Call.DefinePrim path r.st._usdName, Call.WriteMatrix path node,
        Call.WriteMaterialBinding node path, Call.WriteArnoldParameters node path "arnold"]
      ∧ w.st = c._WriteArnoldParameters node path "arnold"
          (c._WriteMaterialBinding node path (c._WriteMatrix path node defined))) ∧
    (kind = AI_NODE_CAMERA ∨ kind = AI_NODE_LIGHT →
      calls = [Call.DefinePrim path r.st._usdName, Call.WriteMatrix path node,
        Call.WriteArnoldParameters node path "arnold"]
      ∧ w.st = c._WriteArnoldParameters node path "arnold" (c._WriteMatrix path node defined)) ∧
    (kind ≠ AI_NODE_SHAPE → kind ≠ AI_NODE_CAMERA → kind ≠ AI_NODE_LIGHT →
      calls = [Call.DefinePrim path r.st._usdName,
        Call.WriteArnoldParameters node path "arnold"]
      ∧ w.st = c._WriteArnoldParameters node path "arnold" defined) := by
  intro path kind w calls defined
  refine ⟨isSome_DefinePrim r.st.stage path r.st._usdName, ?_, ?_, ?_⟩
  · intro hk
    simp only [calls, w, UsdArnoldWriteArnoldType.Write, h]
    simp [kind] at hk
    simp [hk, Run.DefinePrim, Run.WriteMatrix, Run.WriteMaterialBinding,
      Run.WriteArnoldParameters, path, defined]
  · intro hk
    have hns : kind ≠ AI_NODE_SHAPE := by
      rcases hk with hk | hk <;> rw [hk] <;> decide
    simp only [calls, w, UsdArnoldWriteArnoldType.Write, h]
    simp only [kind] at hk hns
    simp [hk, hns, Run.DefinePrim, Run.WriteMatrix, Run.WriteMaterialBinding,
      Run.WriteArnoldParameters, path, defined]
  · intro h1 h2 h3
    simp only [calls, w, UsdArnoldWriteArnoldType.Write, h]
    simp only [kind] at h1 h2 h3
    simp [h1, h2, h3, Run.DefinePrim, Run.WriteMatrix, Run.WriteMaterialBinding,
      Run.WriteArnoldParameters, path, defined]

/-- C7, on the demonstration scene: the shape `/mesh` (node 1) gets the transform
and the material binding. -/
theorem C7_witness :
    primIsValidAndActive
        (UsdStage.GetPrimAtPath (freshRun "ArnoldPolymesh").st.stage
          (demoWriter.GetArnoldNodeName 1 (freshRun "ArnoldPolymesh").st)) = false
    ∧ AiNodeEntryGetType (AiNodeGetNodeEntry demoUniverse 1) = AI_NODE_SHAPE
    ∧ (UsdArnoldWriteArnoldType.Write demoWriter demoUniverse 1
          (freshRun "ArnoldPolymesh")).log.drop (freshRun "ArnoldPolymesh").log.length
        = [Call.DefinePrim "/mesh" "ArnoldPolymesh", Call.WriteMatrix "/mesh" 1,
           Call.WriteMaterialBinding 1 "/mesh", Call.WriteArnoldParameters 1 "/mesh" "arnold"]
    ∧ (UsdArnoldWriteArnoldType.Write demoWriter demoUniverse 1
          (freshRun "ArnoldPolymesh")).st
        = demoWriter._WriteArnoldParameters 1 "/mesh" "arnold"
            (demoWriter._WriteMaterialBinding 1 "/mesh"
              (demoWriter._WriteMatrix "/mesh" 1
                { (freshRun "ArnoldPolymesh").st with
                  stage := UsdStage.DefinePrim (freshRun "ArnoldPolymesh").st.stage "/mesh"
                    "ArnoldPolymesh" })) :=
  ⟨by decide, by decide,
   (C7_generic_kind_dispatch demoWriter demoUniverse 1 (freshRun "ArnoldPolymesh")
      (by decide)).2.1 (by decide)⟩

/-- C8. Already-translated short-circuit of the instance translator: when a
primitive is present and active at the resolved path of the instance,
`UsdArnoldWriteGinstance::Write` returns the run it was given (stage, exported set
and log unchanged), and so does a second `Write`. -/
theorem C8_instance_short_circuit (c : Collaborators) (u : AtUniverse) (node : AtNode)
    (r : Run)
    (h : primIsValidAndActive
      (UsdStage.GetPrimAtPath r.st.stage (c.GetArnoldNodeName node r.st)) = true) :
    UsdArnoldWriteGinstance.Write c u node r = r
    ∧ UsdArnoldWriteGinstance.Write c u node (UsdArnoldWriteGinstance.Write c u node r)
        = UsdArnoldWriteGinstance.Write c u node r := by
  have hw := ginstance_Write_of_active c u node r h
  refine ⟨hw, ?_⟩
  rw [hw, hw]

/-- C8, on the demonstration scene: the instance `/inst` translated again after a
first translation. -/
theorem C8_witness :
    primIsValidAndActive
        (UsdStage.GetPrimAtPath afterInstance.st.stage
          (demoWriter.GetArnoldNodeName 2 afterInstance.st)) = true
    ∧ UsdArnoldWriteGinstance.Write demoWriter demoUniverse 2 afterInstance = afterInstance :=
  ⟨by decide,
   (C8_instance_short_circuit demoWriter demoUniverse 2 afterInstance (by decide)).1⟩

/-- C10. Type mismatch in the diff path: for an attribute type that is neither
boolean nor byte, `_ProcessInstanceAttribute` returns the run it was given, whether
or not the target declares the attribute: no field is created, the name is not
added to the exported set, nothing is logged; being a total function, it raises no
fault. -/
theorem C10_diff_type_mismatch (u : AtUniverse) (prim : UsdPrim) (node target : AtNode)
    (attrName : String) (attrType : Int) (r : Run)
    (hb : attrType ≠ AI_TYPE_BOOLEAN) (hy : attrType ≠ AI_TYPE_BYTE) :
    UsdArnoldWriteGinstance._ProcessInstanceAttribute u prim node target attrName attrType r
      = r := by
  unfold UsdArnoldWriteGinstance._ProcessInstanceAttribute
  simp [hb, hy]

/-- C10, on the demonstration scene: `visibility`, declared by the target `/mesh`,
passed with the type `AI_TYPE_INT`. -/
theorem C10_witness :
    AI_TYPE_INT ≠ AI_TYPE_BOOLEAN ∧ AI_TYPE_INT ≠ AI_TYPE_BYTE
    ∧ AiNodeEntryLookUpParameter (AiNodeGetNodeEntry demoUniverse 1) "visibility" ≠ none
    ∧ UsdArnoldWriteGinstance._ProcessInstanceAttribute demoUniverse "/inst" 2 1
        "visibility" AI_TYPE_INT
        ((freshRun "ArnoldGinstance").DefinePrim "/inst" "ArnoldGinstance")
      = (freshRun "ArnoldGinstance").DefinePrim "/inst" "ArnoldGinstance" :=
  ⟨by decide, by decide, by decide,
   C10_diff_type_mismatch demoUniverse "/inst" 2 1 "visibility" AI_TYPE_INT _
     (by decide) (by decide)⟩

end ArnoldUsd
